import Mathlib

/-!
Verification of the user-management screen (src/pages/Users.tsx and
src/components/AddUserForm.tsx).

The two React components are shallowly embedded as pure functions that,
given the environment (the API's response behaviour) and the current
component state, return the effects the handler performs: which API call
was issued, which toasts were shown, and the resulting state.
-/

namespace VistaBoss

/-- A user row as delivered by `api.getUsers` (the `User` type of the app):
integer id, display name, email, role string, creation timestamp. -/
structure User where
  id : Int
  nombre : String
  email : String
  rol : String
  createdAt : String
deriving Repr, DecidableEq

/-- A toast notification as produced by `toast(\x7b title, description, variant \x7d)`;
`destructive` records whether `variant: "destructive"` was passed. -/
structure Toast where
  title : String
  description : String
  destructive : Bool
deriving Repr, DecidableEq

/-- A value caught in a `catch (error)` clause: either an `Error` object
carrying a message (`error instanceof Error`), or any other thrown value. -/
inductive JsError where
  | errObj (message : String)
  | nonError
deriving Repr, DecidableEq

/-- Leading-match test on character lists, auxiliary for `strIncludes`. -/
def charsLead : List Char → List Char → Bool
  | [], _ => true
  | _ :: _, [] => false
  | a :: as, b :: bs => a == b && charsLead as bs

/-- Substring occurrence on character lists, auxiliary for `strIncludes`. -/
def charsSub (needle : List Char) : List Char → Bool
  | [] => needle.isEmpty
  | b :: bs => charsLead needle (b :: bs) || charsSub needle bs

/-- JavaScript `hay.includes(needle)`: substring containment. -/
def strIncludes (hay needle : String) : Bool :=
  charsSub needle.data hay.data

/-- JavaScript `s.toLowerCase()`, restricted to its ASCII behaviour (the
role strings compared in Users.tsx are ASCII). -/
def jsToLower (s : String) : String :=
  String.mk (s.data.map Char.toLower)

/-! ## Users.tsx : list view -/

/-- Effects of one run of `fetchUsers` in Users.tsx: the resulting `users`
state, the final `isLoading` flag, and the toasts shown. -/
structure FetchEffects where
  users : List User
  isLoading : Bool
  toasts : List Toast
deriving Repr, DecidableEq

/-- The toast shown by `fetchUsers` when `api.getUsers` rejects. -/
def fetchErrorToast : Toast :=
  ⟨"Error", "No se pudieron cargar los usuarios", true⟩

/-- `fetchUsers` of Users.tsx: sets loading, awaits `api.getUsers`
(whose outcome is `getUsersResult`), replaces the collection on success,
toasts on failure, and clears loading in the `finally` block. -/
def fetchUsers (getUsersResult : Except JsError (List User))
    (users : List User) : FetchEffects :=
  match getUsersResult with
  | .ok data => { users := data, isLoading := false, toasts := [] }
  | .error _ => { users := users, isLoading := false, toasts := [fetchErrorToast] }

/-- Effects of one run of `handleDelete` in Users.tsx: the id passed to
`api.deleteUser` (if any call is issued), the toasts shown, whether
`fetchUsers()` is re-run, and the resulting `deleteId` state. -/
structure DeleteEffects where
  apiCall : Option Int
  toasts : List Toast
  refetch : Bool
  deleteIdAfter : Option Int
deriving Repr, DecidableEq

/-- `handleDelete` effects when the early `if (!deleteId) return` fires:
no call, no toast, no refetch, state untouched. -/
def noDeleteEffects (deleteId : Option Int) : DeleteEffects :=
  { apiCall := none, toasts := [], refetch := false, deleteIdAfter := deleteId }

/-- Message chosen in the `catch` block of `handleDelete`: substring
classification of `error.message` against "500", "403", "404" in that
order, generic fallback otherwise and for non-`Error` values. -/
def deleteErrorMessage : JsError → String
  | .errObj msg =>
      if strIncludes msg "500" then
        "Error del servidor: El usuario no puede ser eliminado (posiblemente tiene datos relacionados o es un administrador)"
      else if strIncludes msg "403" then
        "No tienes permisos para eliminar este usuario"
      else if strIncludes msg "404" then
        "El usuario no fue encontrado"
      else
        "No se pudo eliminar el usuario"
  | .nonError => "No se pudo eliminar el usuario"

/-- The success toast of `handleDelete`. -/
def deleteSuccessToast : Toast :=
  ⟨"Usuario eliminado", "El usuario ha sido eliminado exitosamente", false⟩

/-- `handleDelete` of Users.tsx. `deleteApi` is the environment: the
outcome `api.deleteUser(id)` would have. The guard `if (!deleteId) return`
fires when `deleteId` is `null` or `0` (both falsy), skipping the
`try/finally` entirely, so the state is left untouched. Otherwise the call
is issued; on success a success toast is shown and `fetchUsers()` re-run,
on failure a classified error toast is shown; the `finally` block clears
`deleteId` in both cases. -/
def handleDelete (deleteApi : Int → Except JsError Unit) :
    Option Int → DeleteEffects
  | none => noDeleteEffects none
  | some id =>
      if id == 0 then noDeleteEffects (some id)
      else
        match deleteApi id with
        | .ok _ =>
            { apiCall := some id, toasts := [deleteSuccessToast],
              refetch := true, deleteIdAfter := none }
        | .error e =>
            { apiCall := some id,
              toasts := [⟨"Error", deleteErrorMessage e, true⟩],
              refetch := false, deleteIdAfter := none }

/-- `getRoleBadgeVariant` of Users.tsx: lower-cases the role string and
maps admin to the default (strongest) badge, comerciante to secondary,
creador de ruta and anything else to outline. -/
def getRoleBadgeVariant (role : String) : String :=
  let r := jsToLower role
  if r == "admin" then "default"
  else if r == "comerciante" then "secondary"
  else if r == "creador de ruta" then "outline"
  else "outline"

/-- The `disabled` attribute of the per-row delete button:
`user.rol?.toLowerCase() === 'admin'`. -/
def deleteButtonDisabled (rol : String) : Bool :=
  jsToLower rol == "admin"

/-- Clicking the per-row delete affordance: a disabled button fires no
`onClick`, so `deleteId` is unchanged; an enabled one records the row id
via `setDeleteId(user.id)`. -/
def clickDeleteButton (u : User) (deleteId : Option Int) : Option Int :=
  if deleteButtonDisabled u.rol then deleteId else some u.id

/-! ## AddUserForm.tsx : creation form -/

/-- The field values of the creation form (`AddUserFormValues`). -/
structure FormValues where
  nombre : String
  email : String
  password : String
  rol : String
deriving Repr, DecidableEq

/-- `nombre: z.string().min(3, ...)` of `formSchema`: the per-field error
message, or none when the field is valid. -/
def nombreError (s : String) : Option String :=
  if s.length < 3 then some "El nombre debe tener al menos 3 caracteres" else none

/-- `email: z.string().email("Email inválido")` of `formSchema`. The email
syntax test itself is the zod library's; it enters the embedding as the
parameter `emailValid`. -/
def emailError (emailValid : String → Bool) (s : String) : Option String :=
  if emailValid s then none else some "Email inválido"

/-- `password: z.string().min(6, ...)` of `formSchema`. -/
def passwordError (s : String) : Option String :=
  if s.length < 6 then some "La contraseña debe tener al menos 6 caracteres" else none

/-- Membership in `z.enum(["admin", "comerciante", "creador de ruta"])`. -/
def rolValid (r : String) : Bool :=
  r == "admin" || r == "comerciante" || r == "creador de ruta"

/-- The per-field validation issues reported by the zod resolver; `rolErr`
records whether the role enum rejected the value. -/
structure FieldErrors where
  nombreErr : Option String
  emailErr : Option String
  passwordErr : Option String
  rolErr : Bool
deriving Repr, DecidableEq

/-- Running `formSchema` (via `zodResolver`) over the form values: every
field is checked and its issue reported. -/
def validate (emailValid : String → Bool) (v : FormValues) : FieldErrors :=
  { nombreErr := nombreError v.nombre,
    emailErr := emailError emailValid v.email,
    passwordErr := passwordError v.password,
    rolErr := !(rolValid v.rol) }

/-- Whether any field has a validation issue (submission is blocked). -/
def hasErrors (e : FieldErrors) : Bool :=
  e.nombreErr.isSome || e.emailErr.isSome || e.passwordErr.isSome || e.rolErr

/-- Effects of one run of `onSubmit` in AddUserForm.tsx:
`submittingWhenCalled` is the value of `isSubmitting` while the request is
in flight (set before `await api.createUser`), `apiPayload` the values sent
to `api.createUser`, `onUserAddedCalls` how many times the caller-supplied
callback ran, `setOpenCalls` the arguments passed to `setOpen`,
`isSubmittingFinal` the flag after the `finally` block, and `valuesAfter`
the form values afterwards (the form is never reset). -/
structure SubmitEffects where
  submittingWhenCalled : Bool
  apiPayload : Option FormValues
  toasts : List Toast
  onUserAddedCalls : Nat
  setOpenCalls : List Bool
  isSubmittingFinal : Bool
  valuesAfter : FormValues
deriving Repr, DecidableEq

/-- The success toast of `onSubmit`. -/
def createSuccessToast : Toast :=
  ⟨"Usuario creado", "El nuevo usuario ha sido agregado exitosamente.", false⟩

/-- The error description of `onSubmit`:
`error instanceof Error ? error.message : "No se pudo crear el usuario. Inténtalo de nuevo."`. -/
def createErrorMessage : JsError → String
  | .errObj msg => msg
  | .nonError => "No se pudo crear el usuario. Inténtalo de nuevo."

/-- `onSubmit` of AddUserForm.tsx. `createApi` is the environment: the
outcome `api.createUser(values)` would have. `isSubmitting` is set before
the request; on success a success toast is shown, `onUserAdded()` invoked
once and `setOpen(false)` called; on failure only an error toast is shown;
the `finally` block clears `isSubmitting` in both cases. -/
def onSubmit (createApi : FormValues → Except JsError Unit)
    (v : FormValues) : SubmitEffects :=
  match createApi v with
  | .ok _ =>
      { submittingWhenCalled := true, apiPayload := some v,
        toasts := [createSuccessToast], onUserAddedCalls := 1,
        setOpenCalls := [false], isSubmittingFinal := false, valuesAfter := v }
  | .error e =>
      { submittingWhenCalled := true, apiPayload := some v,
        toasts := [⟨"Error", createErrorMessage e, true⟩],
        onUserAddedCalls := 0, setOpenCalls := [],
        isSubmittingFinal := false, valuesAfter := v }

/-- Users.tsx wires `onUserAdded` to `() => \x7b fetchUsers(); \x7d`, so each
invocation of the callback triggers the fetch-all sequence exactly once. -/
def fetchAllRunsTriggered (e : SubmitEffects) : Nat :=
  e.onUserAddedCalls

/-- Outcome of a form submission event: the per-field issues shown, and
the effects of `onSubmit` when validation passed (none when blocked). -/
structure FormOutcome where
  fieldErrors : FieldErrors
  effects : Option SubmitEffects
deriving Repr, DecidableEq

/-- `form.handleSubmit(onSubmit)` of react-hook-form with the zod
resolver: run validation; when any field is invalid, report the issues
per field and do not call `onSubmit` (no network call); otherwise run
`onSubmit`. -/
def formSubmit (emailValid : String → Bool)
    (createApi : FormValues → Except JsError Unit) (v : FormValues) : FormOutcome :=
  let errs := validate emailValid v
  if hasErrors errs then { fieldErrors := errs, effects := none }
  else { fieldErrors := errs, effects := some (onSubmit createApi v) }

/-- Clicking the submit button: its `disabled` attribute is
`isSubmitting`, so while a request is in flight the click fires nothing;
otherwise the submission sequence runs. -/
def submitClick (isSubmitting : Bool) (emailValid : String → Bool)
    (createApi : FormValues → Except JsError Unit) (v : FormValues) :
    Option FormOutcome :=
  if isSubmitting then none else some (formSubmit emailValid createApi v)

/-! ## Theorems -/

/-- Claim C1: for every user in the rendered list whose role is the
administrator value, the per-row delete button is disabled (its `disabled`
attribute is true, the button is rendered, not hidden), and clicking it
fires no handler, so no pending-delete id is recorded for that row. -/
theorem admin_row_delete_disabled (u : User) (prev : Option Int)
    (h : u.rol = "admin") :
    deleteButtonDisabled u.rol = true ∧ clickDeleteButton u prev = prev := by
  have hd : deleteButtonDisabled u.rol = true := by rw [h]; decide
  exact ⟨hd, by simp [clickDeleteButton, hd]⟩

/-- Witness for C1 at a concrete administrator row. -/
theorem admin_row_delete_disabled_witness :
    deleteButtonDisabled "admin" = true ∧
      clickDeleteButton ⟨7, "Ana", "ana@example.com", "admin", "2024-01-01"⟩ none = none :=
  admin_row_delete_disabled ⟨7, "Ana", "ana@example.com", "admin", "2024-01-01"⟩ none rfl

/-- Claim C7: whenever `api.getUsers` rejects during the fetch-all
sequence, the user collection is left unchanged, exactly one destructive
(non-blocking) error toast is surfaced, and the loading flag is still
cleared. -/
theorem fetch_failure_frame (users : List User) (e : JsError) :
    fetchUsers (.error e) users =
      { users := users, isLoading := false, toasts := [fetchErrorToast] } := rfl

/-- Claim C9: confirming while the recorded pending-delete id is absent or
is 0 makes `handleDelete` return immediately — no `deleteUser` call, no
toast, no refetch, state untouched — although the delete button of a
merchant row (whatever its id) is enabled. -/
theorem zero_id_confirm_noop (deleteApi : Int → Except JsError Unit) :
    handleDelete deleteApi none = noDeleteEffects none ∧
      handleDelete deleteApi (some 0) = noDeleteEffects (some 0) ∧
      deleteButtonDisabled "comerciante" = false :=
  ⟨rfl, rfl, by decide⟩

/-- Counterexample to claim C3 as stated: with the pending-delete id 0
recorded (recordable, since the delete button of a non-admin row with id 0
is enabled) and an API that would succeed, confirming issues no
`deleteUser` request at all. -/
theorem confirm_recorded_id_counterexample :
    (handleDelete (fun _ => Except.ok ()) (some 0)).apiCall = none := rfl

/-- Claim C3 (amended to nonzero ids): for every recorded pending-delete
id other than 0, confirming issues `deleteUser` for exactly that id, and
on success the pending id is cleared, the success toast is shown and the
fetch-all sequence re-run. -/
theorem confirm_deletes_recorded_id (deleteApi : Int → Except JsError Unit)
    (id : Int) (h0 : id ≠ 0) (hs : deleteApi id = .ok ()) :
    handleDelete deleteApi (some id) =
      { apiCall := some id, toasts := [deleteSuccessToast],
        refetch := true, deleteIdAfter := none } := by
  have hz : (id == 0) = false := by simp [h0]
  simp [handleDelete, hz, hs]

/-- Witness for the amended C3 at the concrete id 3. -/
theorem confirm_deletes_recorded_id_witness :
    handleDelete (fun _ => Except.ok ()) (some 3) =
      { apiCall := some 3, toasts := [deleteSuccessToast],
        refetch := true, deleteIdAfter := none } :=
  confirm_deletes_recorded_id (fun _ => Except.ok ()) 3 (by decide) rfl

/-- Claim C4: on a failed delete the error toast text is chosen by
substring classification of the error message — "500" gives the
server-refused variant, otherwise "403" the permission variant, otherwise
"404" the not-found variant, anything else (including non-Error throws)
the generic message — and the pending id is still cleared with no
refetch. -/
theorem delete_failure_classified (deleteApi : Int → Except JsError Unit)
    (id : Int) (e : JsError) (h0 : id ≠ 0) (he : deleteApi id = .error e) :
    handleDelete deleteApi (some id) =
      { apiCall := some id, toasts := [⟨"Error", deleteErrorMessage e, true⟩],
        refetch := false, deleteIdAfter := none } ∧
    (∀ m, strIncludes m "500" = true →
      deleteErrorMessage (.errObj m) =
        "Error del servidor: El usuario no puede ser eliminado (posiblemente tiene datos relacionados o es un administrador)") ∧
    (∀ m, strIncludes m "500" = false → strIncludes m "403" = true →
      deleteErrorMessage (.errObj m) = "No tienes permisos para eliminar este usuario") ∧
    (∀ m, strIncludes m "500" = false → strIncludes m "403" = false →
        strIncludes m "404" = true →
      deleteErrorMessage (.errObj m) = "El usuario no fue encontrado") ∧
    (∀ m, strIncludes m "500" = false → strIncludes m "403" = false →
        strIncludes m "404" = false →
      deleteErrorMessage (.errObj m) = "No se pudo eliminar el usuario") ∧
    deleteErrorMessage .nonError = "No se pudo eliminar el usuario" := by
  have hz : (id == 0) = false := by simp [h0]
  refine ⟨by simp [handleDelete, hz, he], ?_, ?_, ?_, ?_, rfl⟩
  · intro m h1
    simp [deleteErrorMessage, h1]
  · intro m h1 h2
    simp [deleteErrorMessage, h1, h2]
  · intro m h1 h2 h3
    simp [deleteErrorMessage, h1, h2, h3]
  · intro m h1 h2 h3
    simp [deleteErrorMessage, h1, h2, h3]

/-- Witness for C4: the spec scenario, id 3 with a 500-bearing error. -/
theorem delete_failure_classified_witness :
    handleDelete (fun _ => Except.error (JsError.errObj "Request failed with status code 500")) (some 3) =
      { apiCall := some 3,
        toasts := [⟨"Error",
          "Error del servidor: El usuario no puede ser eliminado (posiblemente tiene datos relacionados o es un administrador)",
          true⟩],
        refetch := false, deleteIdAfter := none } :=
  (delete_failure_classified
    (fun _ => Except.error (JsError.errObj "Request failed with status code 500"))
    3 (JsError.errObj "Request failed with status code 500") (by decide) rfl).1

/-- Claim C2: any form input with a short name, a rejected email, a short
password or a role outside the enum is blocked by the resolver — no
`createUser` call happens — and each violated field carries its own
issue. -/
theorem invalid_form_blocks_create (emailValid : String → Bool)
    (createApi : FormValues → Except JsError Unit) (v : FormValues)
    (h : v.nombre.length < 3 ∨ emailValid v.email = false ∨
         v.password.length < 6 ∨ rolValid v.rol = false) :
    (formSubmit emailValid createApi v).effects = none ∧
    (formSubmit emailValid createApi v).fieldErrors = validate emailValid v ∧
    (v.nombre.length < 3 →
      (validate emailValid v).nombreErr = some "El nombre debe tener al menos 3 caracteres") ∧
    (emailValid v.email = false →
      (validate emailValid v).emailErr = some "Email inválido") ∧
    (v.password.length < 6 →
      (validate emailValid v).passwordErr = some "La contraseña debe tener al menos 6 caracteres") ∧
    (rolValid v.rol = false → (validate emailValid v).rolErr = true) := by
  have herr : hasErrors (validate emailValid v) = true := by
    rcases h with h | h | h | h
    · simp [hasErrors, validate, nombreError, h]
    · simp [hasErrors, validate, emailError, h]
    · simp [hasErrors, validate, passwordError, h]
    · simp [hasErrors, validate, h]
  refine ⟨?_, ?_, ?_, ?_, ?_, ?_⟩
  · simp [formSubmit, herr]
  · simp [formSubmit, herr]
  · intro hn
    simp [validate, nombreError, hn]
  · intro hm
    simp [validate, emailError, hm]
  · intro hp
    simp [validate, passwordError, hp]
  · intro hr
    simp [validate, hr]

/-- Witness for C2: the spec scenario, name "Jo" of length 2. -/
theorem invalid_form_blocks_create_witness :
    ("Jo" : String).length < 3 ∧
      (formSubmit (fun s => s == "a@b.com") (fun _ => Except.ok ())
          ⟨"Jo", "a@b.com", "secret1", "admin"⟩).effects = none :=
  ⟨by decide,
   (invalid_form_blocks_create (fun s => s == "a@b.com") (fun _ => Except.ok ())
      ⟨"Jo", "a@b.com", "secret1", "admin"⟩ (Or.inl (by decide))).1⟩

/-- Claim C5: when `createUser` succeeds, exactly these effects occur: the
success toast, one invocation of the user-added callback (hence exactly
one triggered fetch-all run), and one `setOpen(false)` closing the
dialog. -/
theorem create_success_effects (createApi : FormValues → Except JsError Unit)
    (v : FormValues) (h : createApi v = .ok ()) :
    onSubmit createApi v =
      { submittingWhenCalled := true, apiPayload := some v,
        toasts := [createSuccessToast], onUserAddedCalls := 1,
        setOpenCalls := [false], isSubmittingFinal := false, valuesAfter := v } ∧
    fetchAllRunsTriggered (onSubmit createApi v) = 1 := by
  constructor <;> simp [onSubmit, fetchAllRunsTriggered, h]

/-- Witness for C5: the spec scenario input with a succeeding API. -/
theorem create_success_effects_witness :
    onSubmit (fun _ => Except.ok ()) ⟨"John Doe", "john@example.com", "secret1", "comerciante"⟩ =
      { submittingWhenCalled := true,
        apiPayload := some ⟨"John Doe", "john@example.com", "secret1", "comerciante"⟩,
        toasts := [createSuccessToast], onUserAddedCalls := 1,
        setOpenCalls := [false], isSubmittingFinal := false,
        valuesAfter := ⟨"John Doe", "john@example.com", "secret1", "comerciante"⟩ } ∧
    fetchAllRunsTriggered (onSubmit (fun _ => Except.ok ())
        ⟨"John Doe", "john@example.com", "secret1", "comerciante"⟩) = 1 :=
  create_success_effects (fun _ => Except.ok ())
    ⟨"John Doe", "john@example.com", "secret1", "comerciante"⟩ rfl

/-- Claim C6: when `createUser` fails, one error toast is shown carrying
the server message for `Error` throws and the generic fallback otherwise;
the dialog is not closed, the entered values are retained, and the submit
flag is cleared — indeed it is cleared whatever the outcome. -/
theorem create_failure_effects (createApi : FormValues → Except JsError Unit)
    (v : FormValues) (e : JsError) (h : createApi v = .error e) :
    onSubmit createApi v =
      { submittingWhenCalled := true, apiPayload := some v,
        toasts := [⟨"Error", createErrorMessage e, true⟩],
        onUserAddedCalls := 0, setOpenCalls := [],
        isSubmittingFinal := false, valuesAfter := v } ∧
    (∀ m, createErrorMessage (.errObj m) = m) ∧
    createErrorMessage .nonError = "No se pudo crear el usuario. Inténtalo de nuevo." ∧
    (∀ api w, (onSubmit api w).isSubmittingFinal = false) := by
  refine ⟨by simp [onSubmit, h], fun m => rfl, rfl, fun api w => ?_⟩
  cases hw : api w <;> simp [onSubmit, hw]

/-- Witness for C6 at a concrete failing API carrying a server message. -/
theorem create_failure_effects_witness :
    onSubmit (fun _ => Except.error (JsError.errObj "duplicate email"))
        ⟨"John Doe", "john@example.com", "secret1", "comerciante"⟩ =
      { submittingWhenCalled := true,
        apiPayload := some ⟨"John Doe", "john@example.com", "secret1", "comerciante"⟩,
        toasts := [⟨"Error", "duplicate email", true⟩],
        onUserAddedCalls := 0, setOpenCalls := [],
        isSubmittingFinal := false,
        valuesAfter := ⟨"John Doe", "john@example.com", "secret1", "comerciante"⟩ } :=
  (create_failure_effects (fun _ => Except.error (JsError.errObj "duplicate email"))
    ⟨"John Doe", "john@example.com", "secret1", "comerciante"⟩
    (JsError.errObj "duplicate email") rfl).1

/-- Claim C8: the submit flag is raised while the request is in flight, a
click on the disabled submit button while it is raised runs nothing (so no
second request can start before the first resolves), and afterwards the
flag is lowered again. -/
theorem single_inflight_create (emailValid : String → Bool)
    (createApi : FormValues → Except JsError Unit) (v w : FormValues) :
    (onSubmit createApi v).submittingWhenCalled = true ∧
      submitClick true emailValid createApi w = none ∧
      (onSubmit createApi v).isSubmittingFinal = false := by
  refine ⟨?_, rfl, ?_⟩ <;> cases h : createApi v <;> simp [onSubmit, h]

/-- Claim C10: role strings are compared after lower-casing, so any role
that lower-cases to the admin value has a disabled delete button and the
strongest (default) badge emphasis, and any role matching none of the
three lowercased values gets the outline emphasis. -/
theorem role_compare_case_insensitive (r : String) :
    (jsToLower r = "admin" →
      deleteButtonDisabled r = true ∧ getRoleBadgeVariant r = "default") ∧
    (jsToLower r ≠ "admin" → jsToLower r ≠ "comerciante" → jsToLower r ≠ "creador de ruta" →
      getRoleBadgeVariant r = "outline") := by
  constructor
  · intro h
    refine ⟨?_, ?_⟩
    · simp [deleteButtonDisabled, h]
    · simp [getRoleBadgeVariant, h]
  · intro h1 h2 h3
    have b1 : (jsToLower r == "admin") = false := by simp [h1]
    have b2 : (jsToLower r == "comerciante") = false := by simp [h2]
    have b3 : (jsToLower r == "creador de ruta") = false := by simp [h3]
    simp [getRoleBadgeVariant, b1, b2, b3]

/-- Witness for C10 at the concrete roles "ADMIN" and "viewer". -/
theorem role_compare_case_insensitive_witness :
    (deleteButtonDisabled "ADMIN" = true ∧ getRoleBadgeVariant "ADMIN" = "default") ∧
      getRoleBadgeVariant "viewer" = "outline" :=
  ⟨(role_compare_case_insensitive "ADMIN").1 (by decide),
   (role_compare_case_insensitive "viewer").2 (by decide) (by decide) (by decide)⟩

end VistaBoss
